import Mathlib

/-
  Verification of the LVGL menu application for the Luckfox Pico
  (repository `lvgl_menu_for_pkpy_luckfoxpico`).

  The repository holds two iterations of the same program:
    * `src/main.c`      — the base variant (main menu, About, Reboot, Console,
                          Settings, Time Settings, Timezone, option pages);
    * `src/src/main.c`  — the NES variant (adds Start Game, NES Emulator
                          browser, OTA Update; drops Timezone).

  The development below is a shallow embedding:
    * pure helpers (preference file save/load, clock-string rendering,
      the time-setter key handler, the NES browser construction) are
      translated directly into Lean functions;
    * the navigation state (screen globals, hidden flags, the single input
      focus of the default LVGL group) becomes an explicit state record,
      and each event handler of the C source becomes a state transition.

  LVGL itself is an external toolkit: `lv_obj_add_flag(.., LV_OBJ_FLAG_HIDDEN)`
  is modelled as setting a Boolean hidden flag, `lv_obj_del` as clearing an
  "alive" flag and synchronously running the object's `LV_EVENT_DELETE`
  callback, and `lv_group_focus_obj` as assigning the single focus value.
-/

/- ===================== Preferences (src/main.c lines 128-161, identical in
   src/src/main.c lines 150-183) ===================== -/

/-- The two persisted display preferences: the globals `show_seconds` and
`is_24_hour_format`. Both are initialised to `true` in the C source. -/
structure Prefs where
  show_seconds : Bool
  is_24_hour_format : Bool
deriving DecidableEq, Repr

/-- The C initialisers: `bool show_seconds = true; bool is_24_hour_format = true;`. -/
def defaultPrefs : Prefs := ⟨true, true⟩

/-- The `%d` rendering of a C bool as written by `save_preferences`. -/
def boolToPrefDigit (b : Bool) : String := cond b "1" "0"

/-- Embeds `save_preferences`: the two lines written to `/etc/menu_prefs.conf`
(`fprintf(fp, "SHOW_SECONDS=%d\n", ...)` then `fprintf(fp, "IS_24_HOUR=%d\n", ...)`);
lines are modelled without their trailing newline (the `fgets` loop of
`load_preferences` splits the file back into the same lines). -/
def save_lines (p : Prefs) : List String :=
  ["SHOW_SECONDS=" ++ boolToPrefDigit p.show_seconds,
   "IS_24_HOUR=" ++ boolToPrefDigit p.is_24_hour_format]

/-- Leading decimal digits of a character list, as consumed by `sscanf`'s `%d`. -/
def takeDigits : List Char → List Char × List Char
  | [] => ([], [])
  | c :: cs =>
    if c.isDigit then
      let (ds, r) := takeDigits cs
      (c :: ds, r)
    else ([], c :: cs)

/-- Embeds `sscanf(line, "%[^=]=%d", key, &value) == 2`: a nonempty run of
characters other than `=`, the literal `=`, then an integer (optional
whitespace, optional sign, at least one digit); trailing characters
(such as the newline kept by `fgets`) are ignored. -/
def scan_kv_int (line : String) : Option (String × Int) :=
  let cs := line.toList
  let key := cs.takeWhile (fun c => c ≠ '=')
  let rest := cs.dropWhile (fun c => c ≠ '=')
  if key.isEmpty then none
  else
    match rest with
    | '=' :: rest1 =>
      let rest2 := rest1.dropWhile (fun c => c = ' ' ∨ c = '\t' ∨ c = '\n')
      let signed : Bool × List Char :=
        match rest2 with
        | '-' :: r => (true, r)
        | '+' :: r => (false, r)
        | r => (false, r)
      let (ds, _) := takeDigits signed.2
      if ds.isEmpty then none
      else
        let n : Nat := ds.foldl (fun a c => a * 10 + (c.toNat - '0'.toNat)) 0
        some (String.mk key, if signed.1 then -(n : Int) else (n : Int))
    | _ => none

/-- One iteration of the `fgets`/`sscanf` loop of `load_preferences`:
`if (strcmp(key, "SHOW_SECONDS") == 0) show_seconds = (value == 1); else if ...`. -/
def load_line (p : Prefs) (line : String) : Prefs :=
  match scan_kv_int line with
  | some (k, v) =>
    if k = "SHOW_SECONDS" then { p with show_seconds := v == 1 }
    else if k = "IS_24_HOUR" then { p with is_24_hour_format := v == 1 }
    else p
  | none => p

/-- Embeds `load_preferences`, acting on the preference-file contents (`none` when
`fopen` fails because the file is absent) and the current globals. When the
file is absent the function calls `save_preferences()`, creating the file
from the current globals; otherwise it folds the parser over the lines and
leaves the file untouched. The file system is modelled as writable. Result:
(new globals, new file contents). -/
def load_preferences (fs : Option (List String)) (p : Prefs) :
    Prefs × Option (List String) :=
  match fs with
  | none => (p, some (save_lines p))
  | some lines => (lines.foldl load_line p, some lines)

/- ===================== Clock rendering (time_update_task,
   src/main.c lines 281-289) ===================== -/

/-- A decimal digit character. -/
def digitChar (d : Nat) : Char :=
  if d = 0 then '0' else if d = 1 then '1' else if d = 2 then '2'
  else if d = 3 then '3' else if d = 4 then '4' else if d = 5 then '5'
  else if d = 6 then '6' else if d = 7 then '7' else if d = 8 then '8'
  else '9'

/-- The `%02d` rendering for the field values produced by `localtime` (always below 100). -/
def two_digit (n : Nat) : String :=
  if n < 100 then String.mk [digitChar (n / 10), digitChar (n % 10)]
  else Nat.repr n

/-- Embeds `strftime`'s `%I`: the hour on a 01..12 clock. -/
def hour12 (h : Nat) : Nat := if h % 12 = 0 then 12 else h % 12

/-- Embeds `strftime`'s `%p`. -/
def am_pm (h : Nat) : String := if h < 12 then "AM" else "PM"

/-- Embeds `time_update_task`: the label text produced from the current time, using
format `%H:%M:%S` / `%H:%M` in 24-hour mode and `%I:%M:%S %p` / `%I:%M %p`
in 12-hour mode; `strftime` is libc, embedded here by its specified output
for exactly these four format strings. -/
def render_time (p : Prefs) (h m s : Nat) : String :=
  if p.is_24_hour_format then
    if p.show_seconds then
      two_digit h ++ ":" ++ two_digit m ++ ":" ++ two_digit s
    else
      two_digit h ++ ":" ++ two_digit m
  else
    if p.show_seconds then
      two_digit (hour12 h) ++ ":" ++ two_digit m ++ ":" ++ two_digit s ++ " " ++ am_pm h
    else
      two_digit (hour12 h) ++ ":" ++ two_digit m ++ " " ++ am_pm h

/- ===================== Time-setter key handler (time_value_adjust_event_cb,
   src/main.c lines 224-239 = src/src/main.c lines 258-273) ===================== -/

/-- Constant `LV_KEY_UP` (LVGL core, value 17). -/
def LV_KEY_UP : Nat := 17

/-- Constant `LV_KEY_DOWN` (LVGL core, value 18). -/
def LV_KEY_DOWN : Nat := 18

/-- Embeds `time_value_adjust_event_cb` acting on the globals `edit_hour` and
`edit_minute`; `is_hour` is `label == time_setter_hour_label`, i.e. whether
the key event was delivered to the hour box. C's `%` on `int` truncates
toward zero, which is `Int.tmod`. -/
def time_value_adjust (is_hour : Bool) (key : Nat) (eh em : Int) : Int × Int :=
  if key = LV_KEY_UP then
    if is_hour then ((eh + 1).tmod 24, em) else (eh, (em + 1).tmod 60)
  else if key = LV_KEY_DOWN then
    if is_hour then ((eh - 1 + 24).tmod 24, em) else (eh, (em - 1 + 60).tmod 60)
  else (eh, em)

/-- A sequence of key events delivered to the time-setter page; each event
carries whether the hour box was the focused receiver, and the raw key. -/
def adjust_run (keys : List (Bool × Nat)) (st : Int × Int) : Int × Int :=
  keys.foldl (fun p k => time_value_adjust k.1 k.2 p.1 p.2) st

/- ===================== NES browser construction (create_nes_browser_screen,
   src/src/main.c lines 819-865) ===================== -/

/-- Value of `readdir`'s `d_type` field `DT_REG` for a regular file. -/
def DT_REG : Nat := 8

/-- One `struct dirent` as far as the browser uses it. -/
structure DirEnt where
  d_name : String
  d_type : Nat
deriving DecidableEq, Repr

/-- One child of the browser list: the "Back" button, a game button, or a
plain text entry added with `lv_list_add_text` (which is not a button and is
never added to the input group). -/
inductive BItem where
  | back : BItem
  | game : String → BItem
  | text : String → BItem
deriving DecidableEq, Repr

/-- Whether the list child is added to the input group by
`create_nes_browser_screen` (the Back button and every game button are;
`lv_list_add_text` entries are not). -/
def bitemFocusable : BItem → Bool
  | .back => true
  | .game _ => true
  | .text _ => false

/-- Whether the list child is a game button. -/
def isGameItem : BItem → Bool
  | .game _ => true
  | _ => false

/-- Whether the list child is an `lv_list_add_text` entry. -/
def isTextItem : BItem → Bool
  | .text _ => true
  | _ => false

/-- The children of the NES browser list, in creation order: the "Back"
button first, then — when `opendir` succeeds (`dir = some entries`) — one
button per `DT_REG` entry in `readdir` order, or — when `opendir` fails
(`dir = none`) — the single text entry `"Error: Cannot open dir"`. -/
def nes_browser_build (dir : Option (List DirEnt)) : List BItem :=
  BItem.back ::
    (match dir with
     | some es => es.filterMap (fun e =>
         if e.d_type = DT_REG then some (BItem.game e.d_name) else none)
     | none => [BItem.text "Error: Cannot open dir"])

/-- Number of game buttons in a browser item list. -/
def gameCount (items : List BItem) : Nat := (items.filter isGameItem).length

/- ===================== Base variant (src/main.c): navigation globals,
   close callbacks, and the option-page click handlers ===================== -/

/-- Main-menu entries of the base variant, in creation order
(`create_main_menu`, src/main.c line 479). -/
def menu_items_v1 : List String := ["Start Game", "Console", "Settings", "About", "Reboot"]

/-- The focus pointer of the default LVGL group in the base variant. -/
inductive FocusV1 where
  | menuItem (i : Nat)
  | settingsItem (i : Nat)
  | pageItem (i : Nat)
deriving DecidableEq, Repr

/-- The navigation-relevant globals of src/main.c: the `menu_list` and
`settings_screen` pointers with their `LV_OBJ_FLAG_HIDDEN` flags, the option
page currently stored in `time_settings_screen` after
`create_generic_option_page` repointed it, the preference globals, the
preference file, the clock label text, the wall-clock reading, and the
focused object of the default group. -/
structure StateV1 where
  menuAlive : Bool
  menuHidden : Bool
  settingsAlive : Bool
  settingsHidden : Bool
  pageAlive : Bool
  prefs : Prefs
  prefsFile : Option (List String)
  clockText : String
  nowH : Nat
  nowM : Nat
  nowS : Nat
  focus : FocusV1
deriving DecidableEq, Repr

/-- Embeds `modal_close_event_cb` (src/main.c lines 173-182): on `LV_EVENT_DELETE`,
if `menu_list` is non-NULL, clear its hidden flag and focus its child 0. -/
def modal_close_event_cb (s : StateV1) : StateV1 :=
  if s.menuAlive then { s with menuHidden := false, focus := .menuItem 0 } else s

/-- Embeds `settings_screen_close_cb` (src/main.c lines 184-189): if `menu_list` is
non-NULL, unhide it and focus its child 2 (the comment says: "Settings"). -/
def settings_screen_close_cb (s : StateV1) : StateV1 :=
  if s.menuAlive then { s with menuHidden := false, focus := .menuItem 2 } else s

/-- Embeds `time_settings_screen_close_cb` (src/main.c lines 191-196): if
`settings_screen` is non-NULL, unhide it and focus its child 0. -/
def time_settings_screen_close_cb (s : StateV1) : StateV1 :=
  if s.settingsAlive then { s with settingsHidden := false, focus := .settingsItem 0 } else s

/-- The primitive statements executed by `show_seconds_event_cb` and
`hour_format_event_cb` (src/main.c lines 252-270), in program order. -/
inductive PrefAction where
  | setShowSeconds (b : Bool)
  | setIs24Hour (b : Bool)
  | callSavePreferences
  | callTimeUpdateTask
  | deletePage
deriving DecidableEq, Repr

/-- The effect of one primitive statement on the state: the assignment to
the global, `save_preferences()` (writes the current globals),
`time_update_task(NULL)` (re-renders the clock label from the current
globals), and `lv_obj_del(page)` — which in the base variant synchronously
runs the page's `LV_EVENT_DELETE` callback `time_settings_screen_close_cb`. -/
def applyPrefAction (s : StateV1) : PrefAction → StateV1
  | .setShowSeconds b => { s with prefs := { s.prefs with show_seconds := b } }
  | .setIs24Hour b => { s with prefs := { s.prefs with is_24_hour_format := b } }
  | .callSavePreferences => { s with prefsFile := some (save_lines s.prefs) }
  | .callTimeUpdateTask => { s with clockText := render_time s.prefs s.nowH s.nowM s.nowS }
  | .deletePage => time_settings_screen_close_cb { s with pageAlive := false }

/-- The statement sequence of `show_seconds_event_cb`: set `show_seconds`
from the clicked button's text, save, refresh the clock, then
`if(page) lv_obj_del(page)`. -/
def show_seconds_prog (pageAlive : Bool) (btnText : String) : List PrefAction :=
  [.setShowSeconds (btnText == "On"), .callSavePreferences, .callTimeUpdateTask]
    ++ (if pageAlive then [.deletePage] else [])

/-- The statement sequence of `hour_format_event_cb`. -/
def hour_format_prog (pageAlive : Bool) (btnText : String) : List PrefAction :=
  [.setIs24Hour (btnText == "24 Hour"), .callSavePreferences, .callTimeUpdateTask]
    ++ (if pageAlive then [.deletePage] else [])

/-- Embeds `show_seconds_event_cb` (src/main.c lines 252-260): the resulting state
together with the executed statement sequence. -/
def show_seconds_event_cb (s : StateV1) (btnText : String) : StateV1 × List PrefAction :=
  ((show_seconds_prog s.pageAlive btnText).foldl applyPrefAction s,
   show_seconds_prog s.pageAlive btnText)

/-- Embeds `hour_format_event_cb` (src/main.c lines 262-270). -/
def hour_format_event_cb (s : StateV1) (btnText : String) : StateV1 × List PrefAction :=
  ((hour_format_prog s.pageAlive btnText).foldl applyPrefAction s,
   hour_format_prog s.pageAlive btnText)

/-- A state used to instantiate the universally quantified theorems below:
all three screens allocated, menu and settings hidden, an option page open. -/
def sampleStateV1 : StateV1 :=
  { menuAlive := true, menuHidden := true, settingsAlive := true, settingsHidden := true,
    pageAlive := true, prefs := defaultPrefs, prefsFile := none, clockText := "",
    nowH := 12, nowM := 30, nowS := 45, focus := .pageItem 0 }

/- ===================== NES variant (src/src/main.c): the full navigation
   machine ===================== -/

/-- Main-menu entries of the NES variant (`create_main_menu`,
src/src/main.c line 556), in creation order. -/
def menu_items_v2 : List String :=
  ["Start Game", "Console", "NES Emulator", "Settings", "About", "Reboot"]

/-- Settings entries (`create_settings_screen`, src/src/main.c lines 752-754). -/
def settings_items_v2 : List String := ["Time Settings", "OTA Update", "Back"]

/-- Time-settings entries (`create_time_settings_screen`, line 660). -/
def time_settings_items_v2 : List String :=
  ["Set time", "Second display", "12/24 Hour format", "Back"]

/-- Options of the "Second Display" page (`create_show_seconds_page`). -/
def show_seconds_options : List String := ["On", "Off"]

/-- Options of the "Time Format" page (`create_hour_format_page`). -/
def hour_format_options : List String := ["24 Hour", "12 Hour"]

/-- The focus pointer of the default LVGL group in the NES variant. -/
inductive Focus where
  | menuItem (i : Nat)
  | aboutBackBtn
  | mboxBtn
  | consoleExitBtn
  | settingsItem (i : Nat)
  | tsItem (i : Nat)
  | subItem (i : Nat)
  | setterHourBox
  | setterMinuteBox
  | setterSaveBtn
  | setterBackBtn
  | otaBackBtn
  | nesBackBtn
  | nesGameBtn (i : Nat)
deriving DecidableEq, Repr

/-- The navigation state of src/src/main.c: one alive flag per screen global
(`menu_list` itself is created once at startup and never deleted, so it has
no alive flag), the `LV_OBJ_FLAG_HIDDEN` flags the source toggles, the NES
browser's children, the preference state, the clock label, the wall clock,
the time-setter edit values, and the focused object of the default group.
`transAlive` is the black full-screen hand-off object created by
`create_game_screen` / `nes_game_launch_event_handler` (stored in the
`console_screen` global by the former, in a local by the latter). -/
structure StateV2 where
  menuHidden : Bool
  timeLabelHidden : Bool
  aboutAlive : Bool
  mboxAlive : Bool
  consoleAlive : Bool
  transAlive : Bool
  settingsAlive : Bool
  settingsHidden : Bool
  tsAlive : Bool
  tsHidden : Bool
  subSecondsAlive : Bool
  subHourAlive : Bool
  setterAlive : Bool
  otaAlive : Bool
  nesAlive : Bool
  nesHidden : Bool
  nesItems : List BItem
  prefs : Prefs
  prefsFile : Option (List String)
  clockText : String
  nowH : Nat
  nowM : Nat
  nowS : Nat
  editHour : Int
  editMinute : Int
  focus : Focus
deriving DecidableEq, Repr

/-- Embeds `modal_close_event_cb` (src/src/main.c lines 207-216); `menu_list` is
always non-NULL once the UI is built, so its NULL check is `true` here. -/
def modal_close_cb_v2 (s : StateV2) : StateV2 :=
  { s with menuHidden := false, focus := .menuItem 0 }

/-- Embeds `settings_screen_close_cb` (src/src/main.c lines 218-223): unhide
`menu_list` and focus its child 2. -/
def settings_close_cb_v2 (s : StateV2) : StateV2 :=
  { s with menuHidden := false, focus := .menuItem 2 }

/-- Embeds `time_settings_screen_close_cb` (src/src/main.c lines 225-230). -/
def ts_close_cb_v2 (s : StateV2) : StateV2 :=
  if s.settingsAlive then { s with settingsHidden := false, focus := .settingsItem 0 } else s

/-- Embeds `sub_page_close_event_cb` (src/src/main.c lines 199-205): restore the
time-settings list and focus its child 0. -/
def sub_page_close_cb_v2 (s : StateV2) : StateV2 :=
  if s.tsAlive then { s with tsHidden := false, focus := .tsItem 0 } else s

/-- Embeds `ota_screen_close_event_cb` (src/src/main.c lines 673-685): stop httpd,
restore the settings screen and focus its child 1 (the "OTA Update" item). -/
def ota_close_cb_v2 (s : StateV2) : StateV2 :=
  if s.settingsAlive then { s with settingsHidden := false, focus := .settingsItem 1 } else s

/-- Embeds `nes_browser_screen_close_cb` (src/src/main.c lines 770-776): unhide
`menu_list` and focus its child 1. -/
def nes_close_cb_v2 (s : StateV2) : StateV2 :=
  { s with menuHidden := false, focus := .menuItem 1 }

/-- Embeds `time_update_task` (src/src/main.c lines 315-323) acting on the state. -/
def time_update_task_v2 (s : StateV2) : StateV2 :=
  { s with clockText := render_time s.prefs s.nowH s.nowM s.nowS }

/-- Whether the currently focused object belongs to a screen that is
allocated and not hidden, and is one of that screen's existing focusable
children. -/
def focusOnActive (s : StateV2) : Bool :=
  match s.focus with
  | .menuItem i => !s.menuHidden && decide (i < 6)
  | .aboutBackBtn => s.aboutAlive
  | .mboxBtn => s.mboxAlive
  | .consoleExitBtn => s.consoleAlive
  | .settingsItem i => s.settingsAlive && !s.settingsHidden && decide (i < 3)
  | .tsItem i => s.tsAlive && !s.tsHidden && decide (i < 4)
  | .subItem i => (s.subSecondsAlive || s.subHourAlive) && decide (i < 2)
  | .setterHourBox => s.setterAlive
  | .setterMinuteBox => s.setterAlive
  | .setterSaveBtn => s.setterAlive
  | .setterBackBtn => s.setterAlive
  | .otaBackBtn => s.otaAlive
  | .nesBackBtn => s.nesAlive && !s.nesHidden
  | .nesGameBtn i => s.nesAlive && !s.nesHidden && decide (i < gameCount s.nesItems)

/-- User/environment events. A click event names the clicked child index of
its list (the user has navigated focus there and pressed ENTER); dispatch is
then by the child's label text, as in the C handlers. `clickMenu` carries
the ROM-directory listing the browser would read (`none` = `opendir` fails);
`clickTsMenu` carries the wall-clock reading `localtime` would return. -/
inductive Ev where
  | clickMenu (i : Nat) (dir : Option (List DirEnt))
  | aboutBack
  | mboxConfirm
  | mboxClose
  | consoleExit
  | clickSettingsMenu (i : Nat)
  | clickTsMenu (i : Nat) (nh nm : Nat)
  | subClickSeconds (i : Nat)
  | subClickHour (i : Nat)
  | setterKey (key : Nat)
  | setterSave
  | setterBack
  | otaBack
  | nesBack
  | nesLaunch (i : Nat)
  | moveFocus (f : Focus)
deriving DecidableEq, Repr

/-- One step of the NES-variant UI. Click events are guarded by their screen
being allocated and visible (a hidden or destroyed widget cannot be reached
and activated by the keypad); the click first moves focus to the clicked
child, then runs the C handler. `moveFocus` is modelled from the spec:
focus moves only among the focusable items of the active screen (LVGL group
navigation itself is toolkit code outside this repository). -/
def step (s : StateV2) : Ev → Option StateV2
  | .clickMenu i dir =>
    if !s.menuHidden && decide (i < 6) then
      let text := menu_items_v2.getD i ""
      if text == "About" then
        some { s with focus := Focus.aboutBackBtn, menuHidden := true, aboutAlive := true }
      else if text == "Reboot" then
        some { s with focus := Focus.mboxBtn, menuHidden := true, mboxAlive := true }
      else if text == "Console" then
        some { s with focus := Focus.consoleExitBtn, menuHidden := true,
                      timeLabelHidden := true, consoleAlive := true }
      else if text == "Settings" then
        some { s with focus := Focus.settingsItem 0, menuHidden := true,
                      settingsAlive := true, settingsHidden := false }
      else if text == "Start Game" then
        some { s with focus := Focus.menuItem i, menuHidden := true,
                      timeLabelHidden := true, transAlive := true }
      else if text == "NES Emulator" then
        some { s with focus := Focus.nesBackBtn, menuHidden := true,
                      nesAlive := true, nesHidden := false,
                      nesItems := nes_browser_build dir }
      else
        some { s with focus := Focus.menuItem i }
    else none
  | .aboutBack =>
    if s.aboutAlive then some (modal_close_cb_v2 { s with aboutAlive := false }) else none
  | .mboxConfirm =>
    if s.mboxAlive then some { s with focus := Focus.mboxBtn } else none
  | .mboxClose =>
    if s.mboxAlive then some (modal_close_cb_v2 { s with mboxAlive := false }) else none
  | .consoleExit =>
    if s.consoleAlive then
      some { s with consoleAlive := false, menuHidden := false,
                    timeLabelHidden := false, focus := Focus.menuItem 1 }
    else none
  | .clickSettingsMenu i =>
    if s.settingsAlive && !s.settingsHidden && decide (i < 3) then
      let text := settings_items_v2.getD i ""
      if text == "Time Settings" then
        some { s with focus := Focus.tsItem 0, settingsHidden := true,
                      tsAlive := true, tsHidden := false }
      else if text == "OTA Update" then
        some { s with focus := Focus.otaBackBtn, settingsHidden := true, otaAlive := true }
      else if text == "Back" then
        some (settings_close_cb_v2 { s with settingsAlive := false })
      else
        some { s with focus := Focus.settingsItem i }
    else none
  | .clickTsMenu i nh nm =>
    if s.tsAlive && !s.tsHidden && decide (i < 4) then
      let text := time_settings_items_v2.getD i ""
      if text == "Set time" then
        if decide (nh < 24) && decide (nm < 60) then
          some { s with focus := Focus.setterHourBox, tsHidden := true,
                        setterAlive := true,
                        editHour := (nh : Int), editMinute := (nm : Int) }
        else none
      else if text == "Second display" then
        some { s with focus := Focus.subItem 0, tsHidden := true, subSecondsAlive := true }
      else if text == "12/24 Hour format" then
        some { s with focus := Focus.subItem 0, tsHidden := true, subHourAlive := true }
      else if text == "Back" then
        some (ts_close_cb_v2 { s with tsAlive := false })
      else
        some { s with focus := Focus.tsItem i }
    else none
  | .subClickSeconds i =>
    if s.subSecondsAlive && decide (i < 2) then
      let p : Prefs := { s.prefs with show_seconds := show_seconds_options.getD i "" == "On" }
      some (sub_page_close_cb_v2
        { s with focus := Focus.subItem i, prefs := p,
                 prefsFile := some (save_lines p),
                 clockText := render_time p s.nowH s.nowM s.nowS,
                 subSecondsAlive := false })
    else none
  | .subClickHour i =>
    if s.subHourAlive && decide (i < 2) then
      let p : Prefs := { s.prefs with is_24_hour_format := hour_format_options.getD i "" == "24 Hour" }
      some (sub_page_close_cb_v2
        { s with focus := Focus.subItem i, prefs := p,
                 prefsFile := some (save_lines p),
                 clockText := render_time p s.nowH s.nowM s.nowS,
                 subHourAlive := false })
    else none
  | .setterKey key =>
    if s.setterAlive && (s.focus == Focus.setterHourBox || s.focus == Focus.setterMinuteBox) then
      let r := time_value_adjust (s.focus == Focus.setterHourBox) key s.editHour s.editMinute
      some { s with editHour := r.1, editMinute := r.2 }
    else none
  | .setterSave =>
    if s.setterAlive then
      some (sub_page_close_cb_v2
        (time_update_task_v2
          { s with focus := Focus.setterSaveBtn,
                   nowH := s.editHour.toNat, nowM := s.editMinute.toNat, nowS := 0,
                   setterAlive := false }))
    else none
  | .setterBack =>
    if s.setterAlive then
      some (sub_page_close_cb_v2 { s with focus := Focus.setterBackBtn, setterAlive := false })
    else none
  | .otaBack =>
    if s.otaAlive then
      some (ota_close_cb_v2 { s with focus := Focus.otaBackBtn, otaAlive := false })
    else none
  | .nesBack =>
    if s.nesAlive && !s.nesHidden then
      some (nes_close_cb_v2 { s with focus := Focus.nesBackBtn, nesAlive := false })
    else none
  | .nesLaunch i =>
    if s.nesAlive && !s.nesHidden && decide (i < gameCount s.nesItems) then
      some { s with focus := Focus.nesGameBtn i, menuHidden := true,
                    timeLabelHidden := true, nesHidden := true, transAlive := true }
    else none
  | .moveFocus f =>
    if focusOnActive { s with focus := f } then some { s with focus := f } else none

/-- The state after `main()` built the UI: `load_preferences` ran on the
preference file `fs`, the clock label was rendered once, `create_main_menu`
added the five menu buttons to the fresh default group — LVGL focuses the
first object added to an empty group, so focus starts on menu child 0. -/
def initV2 (fs : Option (List String)) (h m sec : Nat) : StateV2 :=
  { menuHidden := false, timeLabelHidden := false,
    aboutAlive := false, mboxAlive := false, consoleAlive := false, transAlive := false,
    settingsAlive := false, settingsHidden := false,
    tsAlive := false, tsHidden := false,
    subSecondsAlive := false, subHourAlive := false, setterAlive := false,
    otaAlive := false, nesAlive := false, nesHidden := false, nesItems := [],
    prefs := (load_preferences fs defaultPrefs).1,
    prefsFile := (load_preferences fs defaultPrefs).2,
    clockText := render_time (load_preferences fs defaultPrefs).1 h m sec,
    nowH := h, nowM := m, nowS := sec,
    editHour := 0, editMinute := 0,
    focus := .menuItem 0 }

/-- Run a list of events from a state; `none` as soon as an event's guard fails. -/
def runFrom (s : StateV2) : List Ev → Option StateV2
  | [] => some s
  | e :: evs =>
    match step s e with
    | some s' => runFrom s' evs
    | none => none

/-- Run a list of events from startup. -/
def runV2 (fs : Option (List String)) (h m sec : Nat) (evs : List Ev) : Option StateV2 :=
  runFrom (initV2 fs h m sec) evs

/-- Whether the event is a push: it hides the owner screen and creates a new
screen on top of it (menu clicks all dispatch to screen-creating branches;
settings items 0/1 and time-settings items 0/1/2 create sub-screens;
launching a game creates the hand-off screen). -/
def isPush : Ev → Bool
  | .clickMenu _ _ => true
  | .clickSettingsMenu i => i == 0 || i == 1
  | .clickTsMenu i _ _ => i == 0 || i == 1 || i == 2
  | .nesLaunch _ => true
  | _ => false

/-- Whether the event hands control off to an external process
(`create_game_screen` / `nes_game_launch_event_handler`): the UI is hidden
and focus is deliberately left where it was. -/
def isHandoff : Ev → Bool
  | .clickMenu i _ => i == 0
  | .nesLaunch _ => true
  | _ => false

/- ===================== Screens, allocation and the path invariant ===================== -/

/-- The screens of the NES variant. -/
inductive ScreenId where
  | mainMenu
  | aboutScreen
  | rebootMbox
  | consoleScreen
  | transitionScreen
  | settingsScreen
  | timeSettingsScreen
  | secondsPage
  | hourFormatPage
  | timeSetterPage
  | otaScreen
  | nesBrowser
deriving DecidableEq, Repr

/-- All screens. -/
def screenList : List ScreenId :=
  [.mainMenu, .aboutScreen, .rebootMbox, .consoleScreen, .transitionScreen,
   .settingsScreen, .timeSettingsScreen, .secondsPage, .hourFormatPage,
   .timeSetterPage, .otaScreen, .nesBrowser]

/-- Whether the screen is currently allocated (`menu_list` is created at
startup and never deleted). -/
def aliveB (s : StateV2) : ScreenId → Bool
  | .mainMenu => true
  | .aboutScreen => s.aboutAlive
  | .rebootMbox => s.mboxAlive
  | .consoleScreen => s.consoleAlive
  | .transitionScreen => s.transAlive
  | .settingsScreen => s.settingsAlive
  | .timeSettingsScreen => s.tsAlive
  | .secondsPage => s.subSecondsAlive
  | .hourFormatPage => s.subHourAlive
  | .timeSetterPage => s.setterAlive
  | .otaScreen => s.otaAlive
  | .nesBrowser => s.nesAlive

/-- The screen's `LV_OBJ_FLAG_HIDDEN` flag (the source only ever hides the
main menu, the settings list, the time-settings list and the NES browser). -/
def hiddenB (s : StateV2) : ScreenId → Bool
  | .mainMenu => s.menuHidden
  | .settingsScreen => s.settingsHidden
  | .timeSettingsScreen => s.tsHidden
  | .nesBrowser => s.nesHidden
  | _ => false

/-- Active = allocated and not hidden. -/
def activeB (s : StateV2) (id : ScreenId) : Bool := aliveB s id && !hiddenB s id

/-- The chain of owners above a screen, innermost first: the screens that
must be re-shown, in order, as the screen and its ancestors are popped. -/
def owner_chain : ScreenId → List ScreenId
  | .mainMenu => []
  | .aboutScreen => [.mainMenu]
  | .rebootMbox => [.mainMenu]
  | .consoleScreen => [.mainMenu]
  | .transitionScreen => [.mainMenu]
  | .settingsScreen => [.mainMenu]
  | .nesBrowser => [.mainMenu]
  | .timeSettingsScreen => [.settingsScreen, .mainMenu]
  | .otaScreen => [.settingsScreen, .mainMenu]
  | .secondsPage => [.timeSettingsScreen, .settingsScreen, .mainMenu]
  | .hourFormatPage => [.timeSettingsScreen, .settingsScreen, .mainMenu]
  | .timeSetterPage => [.timeSettingsScreen, .settingsScreen, .mainMenu]

/-- Exactly one screen is active. -/
def uniqueActive (s : StateV2) : Bool :=
  (screenList.filter (fun id => activeB s id)).length == 1

/-- Every owner above an active screen is still allocated, and hidden. -/
def ancestors_retained (s : StateV2) : Bool :=
  screenList.all (fun id =>
    !activeB s id || (owner_chain id).all (fun a => aliveB s a && hiddenB s a))

/- The reachable allocation states, one disjunct per active screen.  Each
shape fixes the alive/hidden flags of every screen on and off the live
path. -/

/-- Only the main menu is on screen. -/
def shapeMenu (s : StateV2) : Bool :=
  !s.menuHidden && !s.aboutAlive && !s.mboxAlive && !s.consoleAlive && !s.transAlive &&
  !s.settingsAlive && !s.tsAlive && !s.subSecondsAlive && !s.subHourAlive &&
  !s.setterAlive && !s.otaAlive && !s.nesAlive

/-- The About screen is open over the hidden menu. -/
def shapeAbout (s : StateV2) : Bool :=
  s.menuHidden && s.aboutAlive && !s.mboxAlive && !s.consoleAlive && !s.transAlive &&
  !s.settingsAlive && !s.tsAlive && !s.subSecondsAlive && !s.subHourAlive &&
  !s.setterAlive && !s.otaAlive && !s.nesAlive

/-- The reboot message box is open over the hidden menu. -/
def shapeMbox (s : StateV2) : Bool :=
  s.menuHidden && !s.aboutAlive && s.mboxAlive && !s.consoleAlive && !s.transAlive &&
  !s.settingsAlive && !s.tsAlive && !s.subSecondsAlive && !s.subHourAlive &&
  !s.setterAlive && !s.otaAlive && !s.nesAlive

/-- The console screen is open over the hidden menu. -/
def shapeConsole (s : StateV2) : Bool :=
  s.menuHidden && !s.aboutAlive && !s.mboxAlive && s.consoleAlive && !s.transAlive &&
  !s.settingsAlive && !s.tsAlive && !s.subSecondsAlive && !s.subHourAlive &&
  !s.setterAlive && !s.otaAlive && !s.nesAlive

/-- The settings list is on screen over the hidden menu. -/
def shapeSettings (s : StateV2) : Bool :=
  s.menuHidden && !s.aboutAlive && !s.mboxAlive && !s.consoleAlive && !s.transAlive &&
  s.settingsAlive && !s.settingsHidden && !s.tsAlive && !s.subSecondsAlive &&
  !s.subHourAlive && !s.setterAlive && !s.otaAlive && !s.nesAlive

/-- The time-settings list is on screen; settings and menu hidden below it. -/
def shapeTs (s : StateV2) : Bool :=
  s.menuHidden && !s.aboutAlive && !s.mboxAlive && !s.consoleAlive && !s.transAlive &&
  s.settingsAlive && s.settingsHidden && s.tsAlive && !s.tsHidden && !s.subSecondsAlive &&
  !s.subHourAlive && !s.setterAlive && !s.otaAlive && !s.nesAlive

/-- The "Second Display" option page is on screen over the hidden
time-settings chain. -/
def shapeSubSeconds (s : StateV2) : Bool :=
  s.menuHidden && !s.aboutAlive && !s.mboxAlive && !s.consoleAlive && !s.transAlive &&
  s.settingsAlive && s.settingsHidden && s.tsAlive && s.tsHidden && s.subSecondsAlive &&
  !s.subHourAlive && !s.setterAlive && !s.otaAlive && !s.nesAlive

/-- The "Time Format" option page is on screen over the hidden chain. -/
def shapeSubHour (s : StateV2) : Bool :=
  s.menuHidden && !s.aboutAlive && !s.mboxAlive && !s.consoleAlive && !s.transAlive &&
  s.settingsAlive && s.settingsHidden && s.tsAlive && s.tsHidden && !s.subSecondsAlive &&
  s.subHourAlive && !s.setterAlive && !s.otaAlive && !s.nesAlive

/-- The time-setter page is on screen over the hidden chain. -/
def shapeSetter (s : StateV2) : Bool :=
  s.menuHidden && !s.aboutAlive && !s.mboxAlive && !s.consoleAlive && !s.transAlive &&
  s.settingsAlive && s.settingsHidden && s.tsAlive && s.tsHidden && !s.subSecondsAlive &&
  !s.subHourAlive && s.setterAlive && !s.otaAlive && !s.nesAlive

/-- The OTA screen is on screen over the hidden settings and menu. -/
def shapeOta (s : StateV2) : Bool :=
  s.menuHidden && !s.aboutAlive && !s.mboxAlive && !s.consoleAlive && !s.transAlive &&
  s.settingsAlive && s.settingsHidden && !s.tsAlive && !s.subSecondsAlive &&
  !s.subHourAlive && !s.setterAlive && s.otaAlive && !s.nesAlive

/-- The NES browser is on screen over the hidden menu. -/
def shapeNes (s : StateV2) : Bool :=
  s.menuHidden && !s.aboutAlive && !s.mboxAlive && !s.consoleAlive && !s.transAlive &&
  !s.settingsAlive && !s.tsAlive && !s.subSecondsAlive && !s.subHourAlive &&
  !s.setterAlive && !s.otaAlive && s.nesAlive && !s.nesHidden

/-- The black hand-off screen is on screen; everything else hidden or gone
(after launching a NES game the hidden browser is still allocated). -/
def shapeTrans (s : StateV2) : Bool :=
  s.menuHidden && !s.aboutAlive && !s.mboxAlive && !s.consoleAlive && s.transAlive &&
  !s.settingsAlive && !s.tsAlive && !s.subSecondsAlive && !s.subHourAlive &&
  !s.setterAlive && !s.otaAlive && (!s.nesAlive || s.nesHidden)

/-- The allocation invariant: the allocated screens form one live path from
the root to a single active screen. -/
def invAlloc (s : StateV2) : Bool :=
  shapeMenu s || shapeAbout s || shapeMbox s || shapeConsole s || shapeSettings s ||
  shapeTs s || shapeSubSeconds s || shapeSubHour s || shapeSetter s || shapeOta s ||
  shapeNes s || shapeTrans s

/-- The focus invariant on top of the allocation invariant. -/
def invFocus (s : StateV2) : Bool := invAlloc s && focusOnActive s

set_option maxHeartbeats 1000000

theorem step_invAlloc (s s' : StateV2) (e : Ev) (hinv : invAlloc s = true)
    (hstep : step s e = some s') : invAlloc s' = true := by
  cases e <;>
    simp only [step, modal_close_cb_v2, settings_close_cb_v2, ts_close_cb_v2,
      sub_page_close_cb_v2, ota_close_cb_v2, nes_close_cb_v2, time_update_task_v2] at hstep <;>
    simp only [invAlloc, Bool.or_eq_true, or_assoc] at hinv <;>
    rcases hinv with h|h|h|h|h|h|h|h|h|h|h|h <;>
    simp only [shapeMenu, shapeAbout, shapeMbox, shapeConsole, shapeSettings, shapeTs,
      shapeSubSeconds, shapeSubHour, shapeSetter, shapeOta, shapeNes, shapeTrans,
      Bool.and_eq_true, Bool.not_eq_true', Bool.or_eq_true] at h <;>
    simp_all <;>
    (try obtain ⟨hi, hstep⟩ := hstep) <;>
    (try split_ifs at hstep) <;>
    (try simp only [Option.some.injEq] at hstep) <;>
    (try subst hstep) <;>
    simp_all [invAlloc, shapeMenu, shapeAbout, shapeMbox, shapeConsole, shapeSettings,
      shapeTs, shapeSubSeconds, shapeSubHour, shapeSetter, shapeOta, shapeNes, shapeTrans]

theorem step_invFocus (s s' : StateV2) (e : Ev) (hh : isHandoff e = false)
    (hinv : invFocus s = true) (hstep : step s e = some s') : invFocus s' = true := by
  cases e <;>
    simp only [isHandoff] at hh <;>
    simp only [step, modal_close_cb_v2, settings_close_cb_v2, ts_close_cb_v2,
      sub_page_close_cb_v2, ota_close_cb_v2, nes_close_cb_v2, time_update_task_v2] at hstep <;>
    simp only [invFocus, invAlloc, Bool.and_eq_true, Bool.or_eq_true, or_assoc] at hinv <;>
    obtain ⟨hinv, hfoc⟩ := hinv <;>
    rcases hinv with h|h|h|h|h|h|h|h|h|h|h|h <;>
    simp only [shapeMenu, shapeAbout, shapeMbox, shapeConsole, shapeSettings, shapeTs,
      shapeSubSeconds, shapeSubHour, shapeSetter, shapeOta, shapeNes, shapeTrans,
      Bool.and_eq_true, Bool.not_eq_true', Bool.or_eq_true] at h <;>
    simp_all <;>
    (try obtain ⟨hi, hstep⟩ := hstep) <;>
    (try split_ifs at hstep) <;>
    (try simp only [Option.some.injEq] at hstep) <;>
    (try subst hstep) <;>
    simp_all [invFocus, invAlloc, focusOnActive, shapeMenu, shapeAbout, shapeMbox,
      shapeConsole, shapeSettings, shapeTs, shapeSubSeconds, shapeSubHour, shapeSetter,
      shapeOta, shapeNes, shapeTrans] <;>
    (try (rename_i i dir hstr; interval_cases i <;> simp_all [menu_items_v2]))

/- ===================== Helper lemmas ===================== -/

theorem bool_not_or_self (b : Bool) : (!b || b) = true := by cases b <;> rfl

/-- C truncating `%` agrees with the Euclidean `%` on nonnegative operands. -/
theorem tmod_eq_emod_of_nonneg (a : Int) (n : Nat) (ha : 0 ≤ a) :
    a.tmod (n : Int) = a % (n : Int) := by
  obtain ⟨m, rfl⟩ := Int.eq_ofNat_of_zero_le ha
  rfl

theorem invAlloc_init (fs : Option (List String)) (h m sec : Nat) :
    invAlloc (initV2 fs h m sec) = true := by
  simp [initV2, invAlloc, shapeMenu]

theorem invFocus_init (fs : Option (List String)) (h m sec : Nat) :
    invFocus (initV2 fs h m sec) = true := by
  simp [initV2, invFocus, invAlloc, shapeMenu, focusOnActive]

theorem runFrom_invAlloc (evs : List Ev) :
    ∀ s : StateV2, invAlloc s = true → (runFrom s evs).all invAlloc = true := by
  induction evs with
  | nil => intro s h; simpa [runFrom, Option.all]
  | cons e evs ih =>
    intro s h
    simp only [runFrom]
    cases hstep : step s e with
    | none => simp [Option.all]
    | some s' => exact ih s' (step_invAlloc s s' e h hstep)

theorem runFrom_invFocus (evs : List Ev) :
    ∀ s : StateV2, (∀ e ∈ evs, isHandoff e = false) → invFocus s = true →
      (runFrom s evs).all invFocus = true := by
  induction evs with
  | nil => intro s _ h; simpa [runFrom, Option.all]
  | cons e evs ih =>
    intro s hno h
    simp only [runFrom]
    cases hstep : step s e with
    | none => simp [Option.all]
    | some s' =>
      exact ih s' (fun e' he' => hno e' (List.mem_cons_of_mem e he'))
        (step_invFocus s s' e (hno e (List.mem_cons_self e evs)) h hstep)

theorem invAlloc_props (s : StateV2) (hinv : invAlloc s = true) :
    (uniqueActive s && ancestors_retained s) = true := by
  simp only [invAlloc, Bool.or_eq_true, or_assoc] at hinv
  rcases hinv with h|h|h|h|h|h|h|h|h|h|h|h <;>
    simp only [shapeMenu, shapeAbout, shapeMbox, shapeConsole, shapeSettings, shapeTs,
      shapeSubSeconds, shapeSubHour, shapeSetter, shapeOta, shapeNes, shapeTrans,
      Bool.and_eq_true, Bool.not_eq_true', Bool.or_eq_true] at h <;>
    (try obtain ⟨hc, h2|h2⟩ := h) <;>
    simp_all [uniqueActive, ancestors_retained, screenList, activeB, aliveB, hiddenB,
      owner_chain]

theorem push_never_destroys (s : StateV2) (e : Ev) (hp : isPush e = true) :
    (step s e).all
      (fun s' => screenList.all (fun id => !aliveB s id || aliveB s' id)) = true := by
  cases e <;>
    simp only [isPush, Bool.or_eq_true, beq_iff_eq] at hp <;>
    (try rcases hp with (rfl | rfl) | rfl) <;>
    simp only [step, modal_close_cb_v2, settings_close_cb_v2, ts_close_cb_v2,
      sub_page_close_cb_v2, ota_close_cb_v2, nes_close_cb_v2, time_update_task_v2] <;>
    (try split_ifs) <;>
    simp_all [Option.all, screenList, aliveB, bool_not_or_self, settings_items_v2,
      time_settings_items_v2]

/-- C2: along every sequence of push operations from the root screen,
exactly one screen is active, and every owner above the active screen is
still allocated and hidden; moreover no push ever deallocates a screen —
a screen is destroyed only by an explicit pop. -/
theorem claim2_push_tree_invariant :
    (∀ (fs : Option (List String)) (h m sec : Nat) (evs : List Ev),
        (∀ e ∈ evs, isPush e = true) →
        (runV2 fs h m sec evs).all
          (fun s => uniqueActive s && ancestors_retained s) = true)
    ∧ (∀ (s : StateV2) (e : Ev), isPush e = true →
        (step s e).all
          (fun s' => screenList.all (fun id => !aliveB s id || aliveB s' id)) = true) := by
  constructor
  · intro fs h m sec evs _
    have hall := runFrom_invAlloc evs (initV2 fs h m sec) (invAlloc_init fs h m sec)
    unfold runV2
    cases hrun : runFrom (initV2 fs h m sec) evs with
    | none => simp [Option.all]
    | some s =>
      rw [hrun] at hall
      simp only [Option.all] at hall ⊢
      exact invAlloc_props s hall
  · exact push_never_destroys

theorem claim2_witness :
    ((runV2 none 12 0 0 [Ev.clickMenu 3 none, Ev.clickSettingsMenu 0, Ev.clickTsMenu 1 0 0]).all
        (fun s => uniqueActive s && ancestors_retained s) = true)
    ∧ ((step (initV2 none 12 0 0) (Ev.clickMenu 2 none)).all
        (fun s' => screenList.all
          (fun id => !aliveB (initV2 none 12 0 0) id || aliveB s' id)) = true) :=
  ⟨claim2_push_tree_invariant.1 none 12 0 0 _ (by decide),
   claim2_push_tree_invariant.2 (initV2 none 12 0 0) (Ev.clickMenu 2 none) (by decide)⟩

/-- C7 (amended): at every state reachable without the two external hand-off
transitions (Start Game, launching a NES ROM), the focused item belongs to a
screen that is allocated and not hidden, and exactly one screen is active —
so a hidden screen never holds focus. The hand-off transitions themselves
hide the whole UI and deliberately leave focus where it was (see the
counterexample). -/
theorem claim7_amended_hidden_never_focused (fs : Option (List String)) (h m sec : Nat)
    (evs : List Ev) (hno : ∀ e ∈ evs, isHandoff e = false) :
    (runV2 fs h m sec evs).all (fun s => focusOnActive s && uniqueActive s) = true := by
  have hall := runFrom_invFocus evs (initV2 fs h m sec) hno (invFocus_init fs h m sec)
  unfold runV2
  cases hrun : runFrom (initV2 fs h m sec) evs with
  | none => simp [Option.all]
  | some s =>
    rw [hrun] at hall
    simp only [Option.all] at hall ⊢
    simp only [invFocus, Bool.and_eq_true] at hall
    have hp := invAlloc_props s hall.1
    simp only [Bool.and_eq_true] at hp ⊢
    exact ⟨hall.2, hp.1⟩

theorem claim7_witness :
    (runV2 none 12 0 0 [Ev.clickMenu 3 none, Ev.clickSettingsMenu 0, Ev.clickTsMenu 3 0 0]).all
      (fun s => focusOnActive s && uniqueActive s) = true :=
  claim7_amended_hidden_never_focused none 12 0 0 _ (by decide)

/-- C7 counterexample: clicking "Start Game" (`create_game_screen`,
src/src/main.c lines 451-473) hides `menu_list` and creates the black
hand-off screen without moving focus: in the resulting reachable state the
focused item is a child of a hidden screen. -/
theorem claim7_counterexample :
    (runV2 none 0 0 0 [Ev.clickMenu 0 none]).map
        (fun s => (s.menuHidden, s.focus, focusOnActive s))
      = some (true, Focus.menuItem 0, false) := by decide

/-- C1 counterexample: open the NES browser from main-menu child 2
("NES Emulator") and close it with Back; `nes_browser_screen_close_cb`
focuses main-menu child 1 ("Console"), not the item that triggered the
push. -/
theorem claim1_counterexample :
    (runV2 none 0 0 0 [Ev.clickMenu 2 none, Ev.nesBack]).map StateV2.focus
        = some (Focus.menuItem 1)
    ∧ menu_items_v2.getD 2 "" = "NES Emulator"
    ∧ menu_items_v2.getD 1 "" = "Console"
    ∧ ¬ (runV2 none 0 0 0 [Ev.clickMenu 2 none, Ev.nesBack]).map StateV2.focus
        = some (Focus.menuItem 2) := by decide

/-- C1 (amended): each close callback restores its owner and focuses a
hard-coded child index of the owner — child 0 after the About screen or the
reboot modal, child 2 after the Settings screen, child 1 after the NES
browser — independent of which item triggered the original push. -/
theorem claim1_amended_fixed_restore_index (s : StateV1) (t : StateV2)
    (hm : s.menuAlive = true) :
    (modal_close_event_cb s).menuHidden = false
    ∧ (modal_close_event_cb s).focus = FocusV1.menuItem 0
    ∧ (settings_screen_close_cb s).menuHidden = false
    ∧ (settings_screen_close_cb s).focus = FocusV1.menuItem 2
    ∧ (modal_close_cb_v2 t).menuHidden = false
    ∧ (modal_close_cb_v2 t).focus = Focus.menuItem 0
    ∧ (settings_close_cb_v2 t).menuHidden = false
    ∧ (settings_close_cb_v2 t).focus = Focus.menuItem 2
    ∧ (nes_close_cb_v2 t).menuHidden = false
    ∧ (nes_close_cb_v2 t).focus = Focus.menuItem 1 := by
  simp [modal_close_event_cb, settings_screen_close_cb, modal_close_cb_v2,
    settings_close_cb_v2, nes_close_cb_v2, hm]

theorem claim1_witness :
    (modal_close_event_cb sampleStateV1).menuHidden = false
    ∧ (modal_close_event_cb sampleStateV1).focus = FocusV1.menuItem 0
    ∧ (settings_screen_close_cb sampleStateV1).menuHidden = false
    ∧ (settings_screen_close_cb sampleStateV1).focus = FocusV1.menuItem 2
    ∧ (modal_close_cb_v2 (initV2 none 0 0 0)).menuHidden = false
    ∧ (modal_close_cb_v2 (initV2 none 0 0 0)).focus = Focus.menuItem 0
    ∧ (settings_close_cb_v2 (initV2 none 0 0 0)).menuHidden = false
    ∧ (settings_close_cb_v2 (initV2 none 0 0 0)).focus = Focus.menuItem 2
    ∧ (nes_close_cb_v2 (initV2 none 0 0 0)).menuHidden = false
    ∧ (nes_close_cb_v2 (initV2 none 0 0 0)).focus = Focus.menuItem 1 :=
  claim1_amended_fixed_restore_index sampleStateV1 (initV2 none 0 0 0) rfl

/-- C6: when `opendir` fails the browser screen is still created: its list
holds the Back button and exactly one placeholder text entry
("Error: Cannot open dir"), no game buttons, and the Back button is the only
focusable child; the click on "NES Emulator" succeeds all the same. -/
theorem claim6_missing_dir_placeholder :
    nes_browser_build none = [BItem.back, BItem.text "Error: Cannot open dir"]
    ∧ ((nes_browser_build none).filter isTextItem).length = 1
    ∧ ((nes_browser_build none).filter isGameItem).length = 0
    ∧ (nes_browser_build none).filter bitemFocusable = [BItem.back]
    ∧ (runV2 none 0 0 0 [Ev.clickMenu 2 none]).isSome = true := by decide

/-- C3: after one save of any pair of flag values, loading — from any prior
globals — yields exactly the saved values, and loading again from the
unchanged file yields them again. -/
theorem claim3_save_load_roundtrip (a b : Bool) (q1 q2 : Prefs) :
    (load_preferences (some (save_lines ⟨a, b⟩)) q1).1 = ⟨a, b⟩
    ∧ (load_preferences (load_preferences (some (save_lines ⟨a, b⟩)) q1).2 q2).1 = ⟨a, b⟩ := by
  obtain ⟨c, d⟩ := q1
  obtain ⟨e, f⟩ := q2
  cases a <;> cases b <;> cases c <;> cases d <;> cases e <;> cases f <;> decide

/-- C5: when the preference file is absent at startup, `load_preferences`
returns with the default globals (`show_seconds = true`,
`is_24_hour_format = true`) untouched and persists exactly those defaults
to the file. -/
theorem claim5_absent_file_defaults :
    load_preferences none defaultPrefs
      = (⟨true, true⟩, some ["SHOW_SECONDS=1", "IS_24_HOUR=1"])
    ∧ (load_preferences none defaultPrefs).2 = some (save_lines defaultPrefs) := by decide

theorem two_digit_length (n : Nat) (h : n < 100) : (two_digit n).length = 2 := by
  simp only [two_digit, if_pos h]
  rfl

theorem am_pm_length (h : Nat) : (am_pm h).length = 2 := by
  unfold am_pm
  split <;> rfl

/-- C4: the rendered clock string is determined by the two flags exactly as
specified: 24-hour mode gives `"HH:MM:SS"` (8 characters) with seconds and
`"HH:MM"` (5) without; 12-hour mode gives `"HH:MM:SS AM/PM"` (11) with
seconds and `"HH:MM AM/PM"` (8) without, with `AM` exactly when the hour is
below 12. -/
theorem claim4_clock_string_format (h m s : Nat) (hh : h < 24) (hm : m < 60) (hs : s < 60) :
    (render_time ⟨true, true⟩ h m s).length = 8
    ∧ (render_time ⟨false, true⟩ h m s).length = 5
    ∧ (render_time ⟨true, false⟩ h m s).length = 11
    ∧ (render_time ⟨false, false⟩ h m s).length = 8
    ∧ render_time ⟨true, false⟩ h m s
        = two_digit (hour12 h) ++ ":" ++ two_digit m ++ ":" ++ two_digit s ++ " " ++ am_pm h
    ∧ render_time ⟨false, false⟩ h m s
        = two_digit (hour12 h) ++ ":" ++ two_digit m ++ " " ++ am_pm h
    ∧ (h < 12 → am_pm h = "AM") ∧ (12 ≤ h → am_pm h = "PM") := by
  have hh100 : h < 100 := by omega
  have hm100 : m < 100 := by omega
  have hs100 : s < 100 := by omega
  have h12 : hour12 h < 100 := by unfold hour12; split <;> omega
  refine ⟨?_, ?_, ?_, ?_, ?_, ?_, ?_, ?_⟩
  · simp [render_time, String.length_append, two_digit_length, hh100, hm100, hs100]
    decide
  · simp [render_time, String.length_append, two_digit_length, hh100, hm100]
    decide
  · simp [render_time, String.length_append, two_digit_length, am_pm_length, h12, hm100, hs100]
    decide
  · simp [render_time, String.length_append, two_digit_length, am_pm_length, h12, hm100]
    decide
  · simp [render_time]
  · simp [render_time]
  · intro hlt; simp [am_pm, hlt]
  · intro hge; simp [am_pm, Nat.not_lt.mpr hge]

theorem claim4_witness :
    (render_time ⟨true, true⟩ 13 5 9).length = 8
    ∧ (render_time ⟨false, true⟩ 13 5 9).length = 5
    ∧ (render_time ⟨true, false⟩ 13 5 9).length = 11
    ∧ (render_time ⟨false, false⟩ 13 5 9).length = 8
    ∧ render_time ⟨true, false⟩ 13 5 9
        = two_digit (hour12 13) ++ ":" ++ two_digit 5 ++ ":" ++ two_digit 9 ++ " " ++ am_pm 13
    ∧ render_time ⟨false, false⟩ 13 5 9
        = two_digit (hour12 13) ++ ":" ++ two_digit 5 ++ " " ++ am_pm 13
    ∧ (13 < 12 → am_pm 13 = "AM") ∧ (12 ≤ 13 → am_pm 13 = "PM") :=
  claim4_clock_string_format 13 5 9 (by decide) (by decide) (by decide)

/-- C9: a close callback whose owner pointer is NULL skips the restore step
as a complete no-op: no unhide, no focus change, all other state unchanged. -/
theorem claim9_null_owner_noop (s t : StateV1)
    (hm : s.menuAlive = false) (hs : t.settingsAlive = false) :
    modal_close_event_cb s = s
    ∧ settings_screen_close_cb s = s
    ∧ time_settings_screen_close_cb t = t := by
  simp [modal_close_event_cb, settings_screen_close_cb, time_settings_screen_close_cb, hm, hs]

theorem claim9_witness :
    modal_close_event_cb { sampleStateV1 with menuAlive := false }
        = { sampleStateV1 with menuAlive := false }
    ∧ settings_screen_close_cb { sampleStateV1 with menuAlive := false }
        = { sampleStateV1 with menuAlive := false }
    ∧ time_settings_screen_close_cb { sampleStateV1 with settingsAlive := false }
        = { sampleStateV1 with settingsAlive := false } :=
  claim9_null_owner_noop _ _ rfl rfl

/-- C8: in both option-page click handlers the external effects — the flag
assignment, `save_preferences()` and `time_update_task()` — are executed
strictly before `lv_obj_del(page)`: the executed statement list places the
save at position 1 and the clock refresh at position 2, before the delete at
position 3; and in the resulting state the restored owner coexists with the
already-updated flag, file and clock label. -/
theorem claim8_effect_before_pop (s : StateV1) (txt1 txt2 : String)
    (hp : s.pageAlive = true) :
    (show_seconds_event_cb s txt1).2
        = [.setShowSeconds (txt1 == "On"), .callSavePreferences, .callTimeUpdateTask,
           .deletePage]
    ∧ (show_seconds_event_cb s txt1).1.prefs
        = { s.prefs with show_seconds := txt1 == "On" }
    ∧ (show_seconds_event_cb s txt1).1.prefsFile
        = some (save_lines (show_seconds_event_cb s txt1).1.prefs)
    ∧ (show_seconds_event_cb s txt1).1.clockText
        = render_time (show_seconds_event_cb s txt1).1.prefs s.nowH s.nowM s.nowS
    ∧ (show_seconds_event_cb s txt1).1.pageAlive = false
    ∧ (s.settingsAlive = true →
        (show_seconds_event_cb s txt1).1.settingsHidden = false
        ∧ (show_seconds_event_cb s txt1).1.focus = FocusV1.settingsItem 0)
    ∧ (hour_format_event_cb s txt2).2
        = [.setIs24Hour (txt2 == "24 Hour"), .callSavePreferences, .callTimeUpdateTask,
           .deletePage]
    ∧ (hour_format_event_cb s txt2).1.prefs
        = { s.prefs with is_24_hour_format := txt2 == "24 Hour" }
    ∧ (hour_format_event_cb s txt2).1.prefsFile
        = some (save_lines (hour_format_event_cb s txt2).1.prefs)
    ∧ (hour_format_event_cb s txt2).1.clockText
        = render_time (hour_format_event_cb s txt2).1.prefs s.nowH s.nowM s.nowS
    ∧ (hour_format_event_cb s txt2).1.pageAlive = false
    ∧ (s.settingsAlive = true →
        (hour_format_event_cb s txt2).1.settingsHidden = false
        ∧ (hour_format_event_cb s txt2).1.focus = FocusV1.settingsItem 0) := by
  by_cases hsa : s.settingsAlive <;>
    simp [show_seconds_event_cb, hour_format_event_cb, show_seconds_prog, hour_format_prog,
      applyPrefAction, time_settings_screen_close_cb, hp, hsa]

theorem claim8_witness :
    (show_seconds_event_cb sampleStateV1 "On").2
        = [.setShowSeconds ("On" == "On"), .callSavePreferences, .callTimeUpdateTask,
           .deletePage]
    ∧ (show_seconds_event_cb sampleStateV1 "On").1.prefs
        = { sampleStateV1.prefs with show_seconds := "On" == "On" }
    ∧ (show_seconds_event_cb sampleStateV1 "On").1.prefsFile
        = some (save_lines (show_seconds_event_cb sampleStateV1 "On").1.prefs)
    ∧ (show_seconds_event_cb sampleStateV1 "On").1.clockText
        = render_time (show_seconds_event_cb sampleStateV1 "On").1.prefs
            sampleStateV1.nowH sampleStateV1.nowM sampleStateV1.nowS
    ∧ (show_seconds_event_cb sampleStateV1 "On").1.pageAlive = false
    ∧ (sampleStateV1.settingsAlive = true →
        (show_seconds_event_cb sampleStateV1 "On").1.settingsHidden = false
        ∧ (show_seconds_event_cb sampleStateV1 "On").1.focus = FocusV1.settingsItem 0)
    ∧ (hour_format_event_cb sampleStateV1 "12 Hour").2
        = [.setIs24Hour ("12 Hour" == "24 Hour"), .callSavePreferences, .callTimeUpdateTask,
           .deletePage]
    ∧ (hour_format_event_cb sampleStateV1 "12 Hour").1.prefs
        = { sampleStateV1.prefs with is_24_hour_format := "12 Hour" == "24 Hour" }
    ∧ (hour_format_event_cb sampleStateV1 "12 Hour").1.prefsFile
        = some (save_lines (hour_format_event_cb sampleStateV1 "12 Hour").1.prefs)
    ∧ (hour_format_event_cb sampleStateV1 "12 Hour").1.clockText
        = render_time (hour_format_event_cb sampleStateV1 "12 Hour").1.prefs
            sampleStateV1.nowH sampleStateV1.nowM sampleStateV1.nowS
    ∧ (hour_format_event_cb sampleStateV1 "12 Hour").1.pageAlive = false
    ∧ (sampleStateV1.settingsAlive = true →
        (hour_format_event_cb sampleStateV1 "12 Hour").1.settingsHidden = false
        ∧ (hour_format_event_cb sampleStateV1 "12 Hour").1.focus = FocusV1.settingsItem 0) :=
  claim8_effect_before_pop sampleStateV1 "On" "12 Hour" rfl

theorem adjust_in_range (is_hour : Bool) (key : Nat) (eh em : Int)
    (h1 : 0 ≤ eh) (h2 : eh < 24) (h3 : 0 ≤ em) (h4 : em < 60) :
    0 ≤ (time_value_adjust is_hour key eh em).1
    ∧ (time_value_adjust is_hour key eh em).1 < 24
    ∧ 0 ≤ (time_value_adjust is_hour key eh em).2
    ∧ (time_value_adjust is_hour key eh em).2 < 60 := by
  have t1 : (eh + 1).tmod 24 = (eh + 1) % (24 : Nat) := tmod_eq_emod_of_nonneg _ 24 (by omega)
  have t2 : (em + 1).tmod 60 = (em + 1) % (60 : Nat) := tmod_eq_emod_of_nonneg _ 60 (by omega)
  have t3 : (eh - 1 + 24).tmod 24 = (eh - 1 + 24) % (24 : Nat) :=
    tmod_eq_emod_of_nonneg _ 24 (by omega)
  have t4 : (em - 1 + 60).tmod 60 = (em - 1 + 60) % (60 : Nat) :=
    tmod_eq_emod_of_nonneg _ 60 (by omega)
  unfold time_value_adjust
  split_ifs <;> simp_all <;> omega

theorem adjust_run_in_range (keys : List (Bool × Nat)) :
    ∀ eh em : Int, 0 ≤ eh → eh < 24 → 0 ≤ em → em < 60 →
      0 ≤ (adjust_run keys (eh, em)).1 ∧ (adjust_run keys (eh, em)).1 < 24
      ∧ 0 ≤ (adjust_run keys (eh, em)).2 ∧ (adjust_run keys (eh, em)).2 < 60 := by
  induction keys with
  | nil =>
    intro eh em h1 h2 h3 h4
    simp only [adjust_run, List.foldl_nil]
    exact ⟨h1, h2, h3, h4⟩
  | cons k ks ih =>
    intro eh em h1 h2 h3 h4
    have hs := adjust_in_range k.1 k.2 eh em h1 h2 h3 h4
    have heq : adjust_run (k :: ks) (eh, em)
        = adjust_run ks ((time_value_adjust k.1 k.2 eh em).1,
                         (time_value_adjust k.1 k.2 eh em).2) := by
      simp [adjust_run, List.foldl_cons]
    rw [heq]
    exact ih _ _ hs.1 hs.2.1 hs.2.2.1 hs.2.2.2

/-- C10: starting from `edit_hour` in `[0,24)` and `edit_minute` in `[0,60)`,
`time_value_adjust_event_cb` keeps both fields in range for every key
sequence; an UP key increments the focused field by 1 modulo its range, a
DOWN key decrements it by 1 with wrap-around at 0, any other key changes
nothing, and the non-focused field is never modified. -/
theorem claim10_time_adjust_ranges (eh em : Int) (key : Nat) (is_hour : Bool)
    (keys : List (Bool × Nat))
    (h1 : 0 ≤ eh) (h2 : eh < 24) (h3 : 0 ≤ em) (h4 : em < 60) :
    (0 ≤ (time_value_adjust is_hour key eh em).1
      ∧ (time_value_adjust is_hour key eh em).1 < 24
      ∧ 0 ≤ (time_value_adjust is_hour key eh em).2
      ∧ (time_value_adjust is_hour key eh em).2 < 60)
    ∧ (key = LV_KEY_UP → time_value_adjust is_hour key eh em
        = if is_hour then ((eh + 1) % 24, em) else (eh, (em + 1) % 60))
    ∧ (key = LV_KEY_DOWN → time_value_adjust is_hour key eh em
        = if is_hour then ((eh - 1 + 24) % 24, em) else (eh, (em - 1 + 60) % 60))
    ∧ (key ≠ LV_KEY_UP → key ≠ LV_KEY_DOWN →
        time_value_adjust is_hour key eh em = (eh, em))
    ∧ (is_hour = true → (time_value_adjust is_hour key eh em).2 = em)
    ∧ (is_hour = false → (time_value_adjust is_hour key eh em).1 = eh)
    ∧ (0 ≤ (adjust_run keys (eh, em)).1 ∧ (adjust_run keys (eh, em)).1 < 24
      ∧ 0 ≤ (adjust_run keys (eh, em)).2 ∧ (adjust_run keys (eh, em)).2 < 60) := by
  have t1 : (eh + 1).tmod 24 = (eh + 1) % (24 : Nat) := tmod_eq_emod_of_nonneg _ 24 (by omega)
  have t2 : (em + 1).tmod 60 = (em + 1) % (60 : Nat) := tmod_eq_emod_of_nonneg _ 60 (by omega)
  have t3 : (eh - 1 + 24).tmod 24 = (eh - 1 + 24) % (24 : Nat) :=
    tmod_eq_emod_of_nonneg _ 24 (by omega)
  have t4 : (em - 1 + 60).tmod 60 = (em - 1 + 60) % (60 : Nat) :=
    tmod_eq_emod_of_nonneg _ 60 (by omega)
  refine ⟨adjust_in_range is_hour key eh em h1 h2 h3 h4, ?_, ?_, ?_, ?_, ?_,
    adjust_run_in_range keys eh em h1 h2 h3 h4⟩
  · intro hk; subst hk
    unfold time_value_adjust
    cases is_hour <;> simp_all
  · intro hk; subst hk
    unfold time_value_adjust
    cases is_hour <;> simp_all [LV_KEY_UP, LV_KEY_DOWN]
  · intro hk1 hk2
    unfold time_value_adjust
    simp [hk1, hk2]
  · intro hi; subst hi
    unfold time_value_adjust
    split_ifs <;> simp_all
  · intro hi; subst hi
    unfold time_value_adjust
    split_ifs <;> simp_all

theorem claim10_witness :
    (0 ≤ (time_value_adjust true 18 0 30).1
      ∧ (time_value_adjust true 18 0 30).1 < 24
      ∧ 0 ≤ (time_value_adjust true 18 0 30).2
      ∧ (time_value_adjust true 18 0 30).2 < 60)
    ∧ (18 = LV_KEY_UP → time_value_adjust true 18 0 30
        = if true then (((0 : Int) + 1) % 24, (30 : Int)) else ((0 : Int), ((30 : Int) + 1) % 60))
    ∧ (18 = LV_KEY_DOWN → time_value_adjust true 18 0 30
        = if true then (((0 : Int) - 1 + 24) % 24, (30 : Int))
          else ((0 : Int), ((30 : Int) - 1 + 60) % 60))
    ∧ (18 ≠ LV_KEY_UP → 18 ≠ LV_KEY_DOWN → time_value_adjust true 18 0 30 = (0, 30))
    ∧ (true = true → (time_value_adjust true 18 0 30).2 = 30)
    ∧ (true = false → (time_value_adjust true 18 0 30).1 = 0)
    ∧ (0 ≤ (adjust_run [(true, 17), (false, 18)] ((0 : Int), (30 : Int))).1
      ∧ (adjust_run [(true, 17), (false, 18)] ((0 : Int), (30 : Int))).1 < 24
      ∧ 0 ≤ (adjust_run [(true, 17), (false, 18)] ((0 : Int), (30 : Int))).2
      ∧ (adjust_run [(true, 17), (false, 18)] ((0 : Int), (30 : Int))).2 < 60) :=
  claim10_time_adjust_ranges 0 30 18 true [(true, 17), (false, 18)]
    (by decide) (by decide) (by decide) (by decide)
